import Mathlib

/-!
Shallow embedding of `src/capita_library_search.py` (capitadiscovery library
catalogue scraper).  HTML documents are modelled as a tree of element and text
nodes; BeautifulSoup selector calls (`select`, `findAll`, `.text`, `.get`)
become list-returning functions over the preorder descendant list.  Network
I/O (`simple_get`) is an oracle `String → Option String` passed into the
search routine; the HTML parser is a second oracle `String → Node`.  Python
exceptions that can escape (`TypeError` from `BeautifulSoup(None)`, `KeyError`
from a missing header) are modelled with `Except`.
-/

mutual

/-- A parsed HTML node: an element with tag, attributes and children, or a
bare text node. -/
inductive Node where
  | text : String → Node
  | elem : String → List (String × String) → NodeList → Node

/-- A list of sibling nodes (kept as a separate inductive so that recursion
over the tree is structural). -/
inductive NodeList where
  | nil : NodeList
  | cons : Node → NodeList → NodeList

end

/-- Build a `NodeList` from an ordinary list of nodes. -/
def NodeList.ofList : List Node → NodeList
  | [] => .nil
  | n :: ns => .cons n (NodeList.ofList ns)

/-- Element constructor taking children as an ordinary list. -/
def el (t : String) (attrs : List (String × String)) (cs : List Node) : Node :=
  .elem t attrs (NodeList.ofList cs)

mutual

/-- All nodes of a subtree in document (preorder) order, the root included. -/
def Node.subtree : Node → List Node
  | .text s => [.text s]
  | .elem t a cs => .elem t a cs :: NodeList.subforest cs

/-- All nodes of a forest in document (preorder) order. -/
def NodeList.subforest : NodeList → List Node
  | .nil => []
  | .cons n ns => Node.subtree n ++ NodeList.subforest ns

end

/-- All strict descendants of a node in document order.  BeautifulSoup's
`select` and `findAll` search descendants only, never the node itself. -/
def Node.descendants : Node → List Node
  | .text _ => []
  | .elem _ _ cs => NodeList.subforest cs

/-- Attribute lookup on an element (first binding wins), `none` on a text
node or an absent attribute. -/
def Node.attr : Node → String → Option String
  | .text _, _ => none
  | .elem _ attrs _, k => (attrs.find? (fun p => p.1 == k)).map (fun p => p.2)

/-- Split a character list on spaces, dropping empty pieces (the behaviour of
whitespace-splitting a `class` attribute).  `acc` holds the characters of the
current token in reverse. -/
def spaceTokens : List Char → List Char → List String
  | [], acc => if acc.isEmpty then [] else [String.mk acc.reverse]
  | c :: cs, acc =>
    if c = ' ' then
      if acc.isEmpty then spaceTokens cs []
      else String.mk acc.reverse :: spaceTokens cs []
    else spaceTokens cs (c :: acc)

/-- The whitespace-separated tokens of the `class` attribute (BeautifulSoup
stores `class` as a multi-valued attribute split on whitespace). -/
def Node.classTokens (n : Node) : List String :=
  match n.attr "class" with
  | none => []
  | some s => spaceTokens s.data []

/-- Does the node have the given element tag? -/
def Node.hasTag (n : Node) (t : String) : Bool :=
  match n with
  | .text _ => false
  | .elem tag _ _ => tag == t

/-- `node.select('tag.cls')`: descendant elements with the tag and the class
token, in document order. -/
def selectTagClass (n : Node) (t c : String) : List Node :=
  n.descendants.filter (fun d => d.hasTag t && d.classTokens.contains c)

/-- `node.select('tag#ident')`: descendant elements with the tag and the id. -/
def selectTagId (n : Node) (t i : String) : List Node :=
  n.descendants.filter (fun d => d.hasTag t && d.attr "id" == some i)

/-- `node.select('tag')`: all descendant elements with the tag. -/
def selectTag (n : Node) (t : String) : List Node :=
  n.descendants.filter (fun d => d.hasTag t)

/-- `node.findAll(tag, {key: value})` for a single-valued attribute such as
`itemprop`: descendant elements with the tag whose attribute equals the
value. -/
def findAllAttr (n : Node) (t k v : String) : List Node :=
  n.descendants.filter (fun d => d.hasTag t && d.attr k == some v)

/-- `node.findAll(tag, {'class': value})`: for the multi-valued `class`
attribute BeautifulSoup matches if any single token equals the value, or the
whitespace-joined whole value does; with space-split tokens that reduces to
token membership. -/
def findAllClassEq (n : Node) (t c : String) : List Node :=
  n.descendants.filter (fun d =>
    d.hasTag t && (d.classTokens.contains c ||
      (String.intercalate " " d.classTokens) == c))

/-- Is `needle` a contiguous substring of the character list? -/
def containsSub (hay needle : List Char) : Bool :=
  match hay with
  | [] => needle.isEmpty
  | _ :: t => needle.isPrefixOf hay || containsSub t needle

/-- `re.search(r'item-status .*', s)` succeeds exactly when `s` contains the
substring `"item-status "` (the trailing `.*` always matches). -/
def matchesItemStatus (s : String) : Bool :=
  containsSub s.data "item-status ".data

/-- `node.findAll('td', {'class': re.compile(r'item-status .*')})`: the regex
is tried against each class token and against the whitespace-joined class
string. -/
def findAllClassRe (n : Node) (t : String) : List Node :=
  n.descendants.filter (fun d =>
    d.hasTag t && (d.classTokens.any matchesItemStatus ||
      matchesItemStatus (String.intercalate " " d.classTokens)))

/-- Text nodes of a subtree in document order, concatenated: `.text` /
`.get_text()` in BeautifulSoup. -/
def Node.getText (n : Node) : String :=
  String.join (n.subtree.filterMap (fun d =>
    match d with
    | .text s => some s
    | .elem _ _ _ => none))

/-- `str.lower()` (ASCII case folding, which is all the comparisons in the
source need). -/
def strToLower (s : String) : String :=
  String.mk (s.data.map Char.toLower)

/-- `str.strip()`: remove leading and trailing whitespace. -/
def pyStrip (s : String) : String :=
  String.mk (((s.data.dropWhile Char.isWhitespace).reverse.dropWhile
    Char.isWhitespace).reverse)

/-! ## Domain records -/

/-- A Python value that is either an int or a str (the `barcode` field starts
as the int `0` and is overwritten with tag text). -/
inductive PyVal where
  | int : Int → PyVal
  | str : String → PyVal
deriving DecidableEq, Repr

/-- `CatalogueItem`: one physical copy. -/
structure CatalogueItem where
  status : String
  barcode : PyVal
  shelfmark : String
  item_type : String
deriving DecidableEq, Repr

/-- `CatalogueItem.__init__`: empty fields, barcode `0`. -/
def CatalogueItem.init : CatalogueItem :=
  { status := "", barcode := .int 0, shelfmark := "", item_type := "" }

/-- `CatalogueItem.is_available`: `self.status.lower() == 'available'`. -/
def CatalogueItem.is_available (c : CatalogueItem) : Bool :=
  strToLower c.status == "available"

/-- `BranchResultItem`: one branch's holdings. -/
structure BranchResultItem where
  name : String
  items : List CatalogueItem
deriving DecidableEq, Repr

/-- The loop body of `BranchResultItem.is_available`: return `True` on the
first available item, `False` after the last. -/
def availLoop : List CatalogueItem → Bool
  | [] => false
  | c :: cs => if c.is_available then true else availLoop cs

/-- `BranchResultItem.is_available`. -/
def BranchResultItem.is_available (b : BranchResultItem) : Bool :=
  availLoop b.items

/-- `SearchResultItem`: one catalogue entry of a search. -/
structure SearchResultItem where
  item_id : String
  title : String
  publisher : String
  link : String
  summary : String
  available : String
  branches : List BranchResultItem
deriving DecidableEq, Repr

/-- `SearchResultItem.__init__`: every text field is the sentinel
`"default"`, branches empty. -/
def SearchResultItem.init : SearchResultItem :=
  { item_id := "default", title := "default", publisher := "default",
    link := "default", summary := "default", available := "default",
    branches := [] }

/-! ## HTTP fetcher (`simple_get` / `is_good_response`) -/

/-- Python exceptions that can escape the modelled code. -/
inductive PyError where
  | typeError
  | keyError
deriving DecidableEq, Repr

/-- What `requests.get` did: raised a transport-level `RequestException`, or
produced a response with a status code, headers and a body. -/
inductive GetOutcome where
  | transportError
  | response (status : Nat) (headers : List (String × String)) (body : String)
deriving DecidableEq, Repr

/-- `resp.headers[k]` on requests' case-insensitive header dict: raises
`KeyError` when the header is absent. -/
def headerLookup (headers : List (String × String)) (k : String) :
    Except PyError String :=
  match headers.find? (fun p => strToLower p.1 == strToLower k) with
  | some p => .ok p.2
  | none => .error .keyError

/-- `is_good_response(resp)`.  Note `resp.headers['Content-Type']` raises
`KeyError` when the header is missing; the `content_type is not None` test in
the source can then never be reached with `None` and is dropped as dead. -/
def is_good_response (status : Nat) (headers : List (String × String)) :
    Except PyError Bool := do
  let ct ← headerLookup headers "Content-Type"
  let content_type := strToLower ct
  .ok (status == 200 && containsSub content_type.data "html".data)

/-- `simple_get(url)` given the outcome of the underlying GET.  Only
`RequestException` is caught (yielding `None`); the `KeyError` from
`is_good_response` escapes. -/
def simple_get (outcome : GetOutcome) : Except PyError (Option String) :=
  match outcome with
  | .transportError => .ok none
  | .response st hs body =>
    match is_good_response st hs with
    | .error e => .error e
    | .ok true => .ok (some body)
    | .ok false => .ok none

/-! ## URL building (`CapitaSearch.__init__`, lines 134-158) -/

/-- `CapitaSearch.capita_url`. -/
def capita_url : String := "https://capitadiscovery.co.uk/"

/-- `CapitaSearch.default_borough`. -/
def default_borough : String := "islington"

/-- `self.borough_url = self.capita_url + (borough if borough else
self.default_borough) + '/'`. -/
def boroughUrl (borough : String) : String :=
  capita_url ++ (if borough = "" then default_borough else borough) ++ "/"

/-- The search-url construction of lines 151-158: start from
`borough_url + 'items?query='`; append the title clause when `title` is
truthy; append `+AND`, the author clause and the `#availability` anchor only
when `author` and `title` are both truthy (the author clause is nested under
`if title:`). -/
def build_search_url (borough_url title author : String) : String :=
  let u0 := borough_url ++ "items?query="
  let u1 := if title ≠ "" then u0 ++ "+title%3A%28" ++ title ++ "%29" else u0
  if author ≠ "" then
    if title ≠ "" then
      u1 ++ "+AND" ++ "+author%3A%28" ++ author ++ "%29" ++ "#availability"
    else u1
  else u1

/-! ## Item-id regex (`re.search(r'items/([0-9]+)\?', temp_link)`) -/

/-- `re.search` scans start positions left to right; at a position the
pattern matches exactly when `items/` is a prefix there, at least one digit
follows, and the character after the maximal digit run is `?` (a shorter
digit run is followed by a digit, never by `?`, so greedy backtracking adds
nothing).  Returns group 1, the digits. -/
def findItemsId : List Char → Option String
  | [] => none
  | c :: cs =>
    if "items/".data.isPrefixOf (c :: cs) then
      let rest := (c :: cs).drop 6
      let ds := rest.takeWhile Char.isDigit
      if !ds.isEmpty && (rest.drop ds.length).head? == some '?' then
        some (String.mk ds)
      else findItemsId cs
    else findItemsId cs

/-- Item id extraction from an `href` string. -/
def extractItemId (s : String) : Option String := findItemsId s.data

/-! ## Listing-page extraction (lines 172-196) -/

/-- Lines 173-196: build a `SearchResultItem` from one `div.summary` of the
listing page — title/href (and via the regex the item id and detail link),
publisher, summary; every missing level leaves the sentinel defaults. -/
def extractListingFields (borough_url : String) (div : Node) :
    SearchResultItem :=
  let it0 := SearchResultItem.init
  let it1 :=
    match selectTagClass div "h2" "title" with
    | [] => it0
    | h2 :: _ =>
      match selectTag h2 "a" with
      | [] => it0
      | a :: _ =>
        let t := (a.attr "title").getD "NOT FOUND"
        let temp_link := (a.attr "href").getD "NOT FOUND"
        match extractItemId temp_link with
        | none => { it0 with title := t }
        | some i =>
          { it0 with
            title := t, item_id := i,
            link := borough_url ++ "items/" ++ i }
  let it2 :=
    match selectTagClass div "div" "publisher" with
    | [] => it1
    | d :: _ =>
      match selectTagClass d "span" "publisher" with
      | [] => it1
      | s :: _ => { it1 with publisher := s.getText }
  match selectTagClass div "div" "summarydetail" with
  | [] => it2
  | d :: _ =>
    match selectTagClass d "span" "summarydetail" with
    | [] => it2
    | s :: _ => { it2 with summary := s.getText }

/-! ## Branch extraction (`CapitaSearch.getBranchResultItem`, lines 220-255) -/

/-- Lines 233-253: one `<tr>` to one `CatalogueItem`; each of the four field
lookups independently keeps the default when it finds nothing. -/
def extractCatalogueItem (row : Node) : CatalogueItem :=
  let c0 := CatalogueItem.init
  let c1 :=
    match findAllAttr row "span" "itemprop" "serialNumber" with
    | [] => c0
    | p :: _ => { c0 with barcode := .str p.getText }
  let c2 :=
    match findAllAttr row "span" "itemprop" "sku" with
    | [] => c1
    | p :: _ => { c1 with shelfmark := p.getText }
  let c3 :=
    match findAllClassEq row "td" "loan" with
    | [] => c2
    | p :: _ => { c2 with item_type := p.getText }
  match findAllClassRe row "td" with
  | [] => c3
  | p :: _ => { c3 with status := pyStrip p.getText }

/-- `getBranchResultItem(branch)`: the `BranchResultItem` is constructed
first; name and items are only populated when the name span (and then a
tbody) is found, and the caller appends the result unconditionally. -/
def getBranchResultItem (branch : Node) : BranchResultItem :=
  match findAllAttr branch "span" "itemprop" "name" with
  | [] => { name := "", items := [] }
  | ns :: _ =>
    match selectTag branch "tbody" with
    | [] => { name := ns.getText, items := [] }
    | tb :: _ =>
      { name := ns.getText,
        items := (selectTag tb "tr").map extractCatalogueItem }

/-! ## Availability fetch (lines 198-218) and the orchestrator -/

/-- Lines 198-216: `html = BeautifulSoup(simple_get(new_item.link),
'html.parser')` runs unconditionally — when `simple_get` returns `None`
(fetch failure, or the sentinel link `'default'` which is not a valid URL),
`BeautifulSoup(None, ...)` raises `TypeError`.  Otherwise the availability
synopsis and the branch list are populated when present. -/
def fetchAvailability (fetch : String → Option String) (parse : String → Node)
    (it : SearchResultItem) : Except PyError SearchResultItem :=
  match fetch it.link with
  | none => .error .typeError
  | some raw =>
    let doc := parse raw
    match selectTagId doc "div" "availability" with
    | [] => .ok it
    | da :: _ =>
      let it1 :=
        match selectTagClass da "div" "status" with
        | [] => it
        | st :: _ =>
          match selectTagClass st "p" "branches" with
          | [] => it
          | p :: _ => { it with available := p.getText }
      match selectTagClass da "ul" "options" with
      | [] => .ok it1
      | ul :: _ =>
        .ok { it1 with branches := (selectTag ul "li").map getBranchResultItem }

/-- Process one `div.summary`: listing fields, then the detail-page step. -/
def processDiv (fetch : String → Option String) (parse : String → Node)
    (borough_url : String) (div : Node) : Except PyError SearchResultItem :=
  fetchAvailability fetch parse (extractListingFields borough_url div)

/-- The per-item loop; a raised exception aborts the remaining items. -/
def processDivs (fetch : String → Option String) (parse : String → Node)
    (borough_url : String) : List Node → Except PyError (List SearchResultItem)
  | [] => .ok []
  | d :: ds =>
    match processDiv fetch parse borough_url d with
    | .error e => .error e
    | .ok it =>
      match processDivs fetch parse borough_url ds with
      | .error e => .error e
      | .ok rest => .ok (it :: rest)

/-- The observable fields of a finished `CapitaSearch` object. -/
structure CapitaState where
  borough_url : String
  search_url : String
  items_found : List SearchResultItem
  error_message : String
deriving DecidableEq, Repr

/-- The nested listing loops of lines 170-172: every `div.summary` under
every `div#searchResults`, in document order. -/
def listingDivs (doc : Node) : List Node :=
  ((selectTagId doc "div" "searchResults").map
    (fun sr => selectTagClass sr "div" "summary")).flatten

/-- `CapitaSearch.__init__(title, author, borough)`.  `fetch` is the
`simple_get` oracle (`none` = falsy return), `parse` the HTML parser.  The
empty-query case returns early with every field at its empty initial value;
a falsy listing page sets the error message; otherwise the items are
extracted, any exception from the per-item loop propagating to the caller. -/
def capitaSearch (fetch : String → Option String) (parse : String → Node)
    (title author borough : String) : Except PyError CapitaState :=
  if title = "" ∧ author = "" then
    .ok { borough_url := "", search_url := "", items_found := [],
          error_message := "" }
  else
    let bu := boroughUrl borough
    let su := build_search_url bu title author
    match fetch su with
    | none =>
      .ok { borough_url := bu, search_url := su, items_found := [],
            error_message := "could not get web page" }
    | some raw =>
      if raw = "" then
        .ok { borough_url := bu, search_url := su, items_found := [],
              error_message := "could not get web page" }
      else
        match processDivs fetch parse bu (listingDivs (parse raw)) with
        | .error e => .error e
        | .ok items =>
          .ok { borough_url := bu, search_url := su, items_found := items,
                error_message := "" }

/-! ## Concrete fixtures used by the per-claim evaluations and witnesses -/

/-- The result-set state of the empty-query early return. -/
def emptySearchState : CapitaState :=
  { borough_url := "", search_url := "", items_found := [],
    error_message := "" }

/-- A fetch oracle on which every request fails. -/
def noFetch : String → Option String := fun _ => none

/-- A parse oracle that is never consulted in the runs that use it. -/
def blankParse : String → Node := fun _ => Node.text ""

/-- A listing entry whose `href` has no `items/<digits>?` portion, so the
item id stays unset. -/
def C1div : Node :=
  el "div" [("class", "summary")] [
    el "h2" [("class", "title")] [
      el "a" [("title", "Broken Item"), ("href", "items/none")] []]]

/-- A listing document holding just `C1div`. -/
def C1doc : Node := el "html" [] [el "div" [("id", "searchResults")] [C1div]]

/-- The search url of the `C1` run. -/
def C1searchUrl : String := build_search_url (boroughUrl "") "mybook" ""

/-- The `C1` fetch oracle: the listing page is served; every other request —
in particular the sentinel url `"default"`, which is not a valid URL, so
`requests.get` raises and `simple_get` returns `None` — fails. -/
def C1fetch : String → Option String :=
  fun u => if u = C1searchUrl then some "LISTING" else none

/-- The `C1` parse oracle. -/
def C1parse : String → Node :=
  fun s => if s = "LISTING" then C1doc else Node.text ""

/-- A listing entry with a resolvable item id `n`. -/
def C2mk (n : String) : Node :=
  el "div" [("class", "summary")] [
    el "h2" [("class", "title")] [
      el "a" [("title", n), ("href", "items/" ++ n ++ "?query")] []],
    el "div" [("class", "publisher")] [
      el "span" [("class", "publisher")] [.text ("pub" ++ n)]]]

/-- A listing document with three entries, ids 1, 2 and 3. -/
def C2listing : Node :=
  el "html" [] [el "div" [("id", "searchResults")]
    [C2mk "1", C2mk "2", C2mk "3"]]

/-- A detail-page branch with a name span and one fully-populated row. -/
def C2branch : Node :=
  el "li" [] [
    el "span" [("itemprop", "name")] [.text "Central"],
    el "table" [] [el "tbody" [] [
      el "tr" [] [
        el "span" [("itemprop", "serialNumber")] [.text "b1"],
        el "span" [("itemprop", "sku")] [.text "s1"],
        el "td" [("class", "loan")] [.text "Standard"],
        el "td" [("class", "item-status available")] [.text " Available "]]]]]

/-- A detail page with an availability synopsis and one branch. -/
def C2detail : Node :=
  el "html" [] [el "div" [("id", "availability")] [
    el "div" [("class", "status")] [
      el "p" [("class", "branches")] [.text "Available at 1 branch"]],
    el "ul" [("class", "options")] [C2branch]]]

/-- The search url of the `C2` run. -/
def C2searchUrl : String := build_search_url (boroughUrl "") "k" ""

/-- The `C2` fetch oracle on which item 2's detail fetch fails while items 1
and 3 succeed. -/
def C2fetch : String → Option String :=
  fun u =>
    if u = C2searchUrl then some "LISTING"
    else if u = boroughUrl "" ++ "items/1" then some "DETAIL"
    else if u = boroughUrl "" ++ "items/3" then some "DETAIL"
    else none

/-- The `C2` fetch oracle on which every detail fetch succeeds. -/
def C2fetchAll : String → Option String :=
  fun u =>
    if u = C2searchUrl then some "LISTING"
    else if u = boroughUrl "" ++ "items/1" then some "DETAIL"
    else if u = boroughUrl "" ++ "items/2" then some "DETAIL"
    else if u = boroughUrl "" ++ "items/3" then some "DETAIL"
    else none

/-- The `C2` parse oracle. -/
def C2parse : String → Node :=
  fun s =>
    if s = "LISTING" then C2listing
    else if s = "DETAIL" then C2detail
    else Node.text ""

/-- The fully-extracted result item `n` of the successful `C2` baseline. -/
def C2item (n : String) : SearchResultItem :=
  { item_id := n, title := n, publisher := "pub" ++ n,
    link := boroughUrl "" ++ "items/" ++ n, summary := "default",
    available := "Available at 1 branch",
    branches := [{ name := "Central",
                   items := [{ status := "Available", barcode := .str "b1",
                               shelfmark := "s1",
                               item_type := "Standard" }] }] }

/-- A detail-page branch element with a populated row group but no span
carrying `itemprop="name"`. -/
def C3branchNoName : Node :=
  el "li" [] [el "table" [] [el "tbody" [] [
    el "tr" [] [el "td" [("class", "loan")] [.text "Standard"]]]]]

/-- A detail page whose options list holds only `C3branchNoName`. -/
def C3detail : Node :=
  el "html" [] [el "div" [("id", "availability")] [
    el "ul" [("class", "options")] [C3branchNoName]]]

/-- A one-entry listing document for the `C3` run, item id 42. -/
def C3listing : Node :=
  el "html" [] [el "div" [("id", "searchResults")] [
    el "div" [("class", "summary")] [
      el "h2" [("class", "title")] [
        el "a" [("title", "T"), ("href", "items/42?x")] []]]]]

/-- The search url of the `C3` run. -/
def C3searchUrl : String := build_search_url (boroughUrl "") "t3" ""

/-- The `C3` fetch oracle. -/
def C3fetch : String → Option String :=
  fun u =>
    if u = C3searchUrl then some "LISTING"
    else if u = boroughUrl "" ++ "items/42" then some "DETAIL"
    else none

/-- The `C3` parse oracle. -/
def C3parse : String → Node :=
  fun s =>
    if s = "LISTING" then C3listing
    else if s = "DETAIL" then C3detail
    else Node.text ""

/-- The branch-name span of the `C10` fixture. -/
def C10nameSpan : Node := el "span" [("itemprop", "name")] [.text "Central Library"]

/-- A table row on which all four field lookups fail. -/
def C10emptyRow : Node := el "tr" [] []

/-- A table row with a serial number and a status cell. -/
def C10fullRow : Node :=
  el "tr" [] [el "span" [("itemprop", "serialNumber")] [.text "123"],
              el "td" [("class", "item-status available")] [.text " Available "]]

/-- The row group of the `C10` fixture. -/
def C10tbody : Node := el "tbody" [] [C10emptyRow, C10fullRow]

/-- A branch element with a name span and a two-row tbody. -/
def C10branch : Node := el "li" [] [C10nameSpan, el "table" [] [C10tbody]]

/-! ## Helper lemmas -/

/-- The availability loop returns `true` exactly when some item of the list
is available. -/
theorem availLoop_iff (l : List CatalogueItem) :
    availLoop l = true ↔ ∃ c ∈ l, c.is_available = true := by
  induction l with
  | nil => simp [availLoop]
  | cons c cs ih =>
    by_cases h : c.is_available = true
    · constructor
      · intro _
        exact ⟨c, List.mem_cons_self c cs, h⟩
      · intro _
        simp [availLoop, h]
    · simp [availLoop, h, ih]

/-- Appending a nonempty string on the right gives a nonempty string. -/
theorem append_right_ne_empty (s t : String) (h : t ≠ "") : s ++ t ≠ "" := by
  intro he
  apply h
  apply String.ext
  have hd : s.data ++ t.data = [] := by
    have h2 := congrArg String.data he
    rwa [String.data_append] at h2
  exact (List.append_eq_nil.mp hd).2

/-- The borough url always ends with `/` and is never empty. -/
theorem boroughUrl_ne_empty (b : String) : boroughUrl b ≠ "" := by
  unfold boroughUrl
  exact append_right_ne_empty _ _ (by decide)

/-- The built search url is never the empty string. -/
theorem build_search_url_ne_empty (bu t a : String) :
    build_search_url bu t a ≠ "" := by
  unfold build_search_url
  by_cases ht : t = "" <;> by_cases ha : a = "" <;>
    simp only [ht, ha, ne_eq, not_true_eq_false, not_false_eq_true, if_true,
      if_false, ite_true, ite_false] <;>
    exact append_right_ne_empty _ _ (by decide)

/-- Every successful non-early-return of `capitaSearch` carries the borough
url of its borough argument. -/
theorem capitaSearch_ok_borough (fetch : String → Option String)
    (parse : String → Node) (t a b : String) (st : CapitaState)
    (hq : ¬(t = "" ∧ a = ""))
    (h : capitaSearch fetch parse t a b = .ok st) :
    st.borough_url = boroughUrl b := by
  simp only [capitaSearch] at h
  rw [if_neg hq] at h
  split at h
  · injection h with h2
    rw [← h2]
  · split at h
    · injection h with h2
      rw [← h2]
    · split at h
      · simp at h
      · injection h with h2
        rw [← h2]

/-! ## Claim theorems -/

/-- C1: the claim says that a listing entry whose `href` yields no numeric
item id keeps the sentinel `item_id`/`link`, that no detail-page fetch is
performed for it, and that the item still carries the listing-page fields.
The listing-page half is true — `extractListingFields` keeps the sentinels
and still extracts the title — but the detail fetch is NOT skipped: line 199
runs `BeautifulSoup(simple_get(new_item.link))` unconditionally, `simple_get`
of the sentinel url `"default"` returns `None`, and `BeautifulSoup(None)`
raises `TypeError`, so the whole search aborts instead of returning the
item. -/
theorem C1_crash_on_unmatched_href :
    capitaSearch C1fetch C1parse "mybook" "" "" = .error .typeError ∧
    extractListingFields (boroughUrl "") C1div
      = { SearchResultItem.init with title := "Broken Item" } ∧
    (extractListingFields (boroughUrl "") C1div).item_id = "default" ∧
    (extractListingFields (boroughUrl "") C1div).link = "default" :=
  ⟨rfl, rfl, rfl, rfl⟩

/-- C2: the claim says a failed detail fetch for one of K items only leaves
that item's availability/branches at their defaults and the other items and
the overall K-item result set intact.  In fact `BeautifulSoup(None)` raises
`TypeError`, so the one failed fetch aborts the whole search: with ids 1,2,3
and item 2's detail fetch failing the search raises instead of returning
3 items, while the identical run with all fetches succeeding returns all
three fully-populated items. -/
theorem C2_fetch_failure_not_isolated :
    capitaSearch C2fetch C2parse "k" "" "" = .error .typeError ∧
    capitaSearch C2fetchAll C2parse "k" "" "" =
      .ok { borough_url := boroughUrl "", search_url := C2searchUrl,
            items_found := [C2item "1", C2item "2", C2item "3"],
            error_message := "" } :=
  ⟨rfl, rfl⟩

/-- C3 (counterexample): the claim says a branch element with no
`itemprop="name"` span produces no `BranchResultItem` and appends nothing.
In the code `getBranchResultItem` constructs the `BranchResultItem` before
looking for the name span and line 216 appends it unconditionally, so a
nameless branch contributes a default record: running the search over a
detail page whose only branch has no name span yields an item whose
`branches` list holds one `BranchResultItem` with empty name and no items,
not an empty list. -/
theorem C3_nameless_branch_appended :
    capitaSearch C3fetch C3parse "t3" "" ""
      = .ok { borough_url := boroughUrl "",
              search_url := C3searchUrl,
              items_found := [{ SearchResultItem.init with
                                title := "T", item_id := "42",
                                link := boroughUrl "" ++ "items/42",
                                branches := [{ name := "", items := [] }] }],
              error_message := "" } :=
  rfl

/-- C3 (amended): for a branch element with no `itemprop="name"` span, name
and item extraction are skipped but a `BranchResultItem` with empty name and
empty items is still created, and the per-branch loop still appends one
`BranchResultItem` per branch element. -/
theorem C3_amended_default_branch :
    ∀ (branch : Node) (lis : List Node),
      findAllAttr branch "span" "itemprop" "name" = [] →
      getBranchResultItem branch = { name := "", items := [] } ∧
      (lis.map getBranchResultItem).length = lis.length := by
  intro branch lis h
  constructor
  · unfold getBranchResultItem
    rw [h]
  · exact List.length_map lis getBranchResultItem

/-- C3 (witness): the amended statement at the concrete nameless branch. -/
theorem C3_amended_witness :
    getBranchResultItem C3branchNoName = { name := "", items := [] } ∧
    ([C3branchNoName].map getBranchResultItem).length
      = [C3branchNoName].length :=
  C3_amended_default_branch C3branchNoName [C3branchNoName] rfl

/-- C4: the claim says `simple_get` is total and never raises — in
particular that a 200 response with no Content-Type header yields the
absent-document value.  The transport-error, non-200, non-HTML and good-HTML
cases do behave as claimed, but a missing Content-Type header makes
`resp.headers['Content-Type']` raise `KeyError`, which is not a
`RequestException` and escapes to the caller. -/
theorem C4_keyerror_on_missing_content_type :
    simple_get (.response 200 [] "<html></html>") = .error .keyError ∧
    simple_get .transportError = .ok none ∧
    simple_get (.response 200 [("Content-Type", "text/html; charset=utf-8")]
        "<html>B</html>")
      = .ok (some "<html>B</html>") ∧
    simple_get (.response 404 [("Content-Type", "text/html")] "nf")
      = .ok none ∧
    simple_get (.response 200 [("Content-Type", "application/json")] "nope")
      = .ok none :=
  ⟨rfl, rfl, rfl, rfl, rfl⟩

/-- C5: the search takes the empty-query early return — producing the empty
state, with no urls built — exactly when both title and author are empty,
for every borough; in that case the outcome does not depend on the fetch or
parse oracles at all (no HTTP fetch occurs) and the result set is empty. -/
theorem C5_invalid_query_iff :
    ∀ (fetch : String → Option String) (parse : String → Node)
      (t a b : String),
      (capitaSearch fetch parse t a b = .ok emptySearchState ↔
        t = "" ∧ a = "") ∧
      (t = "" ∧ a = "" →
        ∀ (fetch2 : String → Option String) (parse2 : String → Node),
          capitaSearch fetch2 parse2 t a b = .ok emptySearchState) := by
  intro fetch parse t a b
  constructor
  · constructor
    · intro h
      by_contra hna
      have hb := capitaSearch_ok_borough fetch parse t a b emptySearchState
        hna h
      exact boroughUrl_ne_empty b hb.symm
    · intro hq
      unfold capitaSearch
      rw [if_pos hq]
      rfl
  · intro hq fetch2 parse2
    unfold capitaSearch
    rw [if_pos hq]
    rfl

/-- C5 (witness): the empty query on a concrete borough with concrete
oracles. -/
theorem C5_witness :
    capitaSearch noFetch blankParse "" "" "camden" = .ok emptySearchState :=
  (C5_invalid_query_iff noFetch blankParse "" "" "camden").2 ⟨rfl, rfl⟩
    noFetch blankParse

/-- C6: with both title and author nonempty the search url is the namespace
url, `items?query=`, the percent-delimited title clause, `+AND`, the author
clause and the `#availability` anchor; with only a title it stops after the
title clause; with only an author neither the author clause nor the anchor
is appended (the author-only quirk of lines 154-158). -/
theorem C6_search_url_cases :
    ∀ (bu t a : String),
      (t ≠ "" → a ≠ "" →
        build_search_url bu t a =
          bu ++ "items?query=" ++ "+title%3A%28" ++ t ++ "%29" ++ "+AND" ++
            "+author%3A%28" ++ a ++ "%29" ++ "#availability") ∧
      (t ≠ "" → a = "" →
        build_search_url bu t a =
          bu ++ "items?query=" ++ "+title%3A%28" ++ t ++ "%29") ∧
      (t = "" → a ≠ "" →
        build_search_url bu t a = bu ++ "items?query=") := by
  intro bu t a
  refine ⟨fun h1 h2 => ?_, fun h1 h2 => ?_, fun h1 h2 => ?_⟩ <;>
    simp [build_search_url, h1, h2]

/-- C6 (witness): the spec's own example query. -/
theorem C6_witness :
    build_search_url (boroughUrl "islington") "diary of a nobody" "grossmith"
      = boroughUrl "islington" ++ "items?query=" ++ "+title%3A%28" ++
          "diary of a nobody" ++ "%29" ++ "+AND" ++ "+author%3A%28" ++
          "grossmith" ++ "%29" ++ "#availability" :=
  (C6_search_url_cases (boroughUrl "islington") "diary of a nobody"
    "grossmith").1 (by decide) (by decide)

/-- C7: for a valid query whose listing-page fetch fails, the search returns
the error message "could not get web page", no items, and both urls
populated (nonempty). -/
theorem C7_listing_fetch_failure :
    ∀ (fetch : String → Option String) (parse : String → Node)
      (t a b : String),
      ¬(t = "" ∧ a = "") →
      fetch (build_search_url (boroughUrl b) t a) = none →
      capitaSearch fetch parse t a b =
        .ok { borough_url := boroughUrl b,
              search_url := build_search_url (boroughUrl b) t a,
              items_found := [],
              error_message := "could not get web page" } ∧
      boroughUrl b ≠ "" ∧ build_search_url (boroughUrl b) t a ≠ "" := by
  intro fetch parse t a b hq hf
  refine ⟨?_, boroughUrl_ne_empty b, build_search_url_ne_empty _ _ _⟩
  simp only [capitaSearch]
  rw [if_neg hq, hf]

/-- C7 (witness): a concrete valid query on an always-failing fetch. -/
theorem C7_witness :
    capitaSearch noFetch blankParse "w" "" "" =
      .ok { borough_url := boroughUrl "",
            search_url := build_search_url (boroughUrl "") "w" "",
            items_found := [],
            error_message := "could not get web page" } ∧
    boroughUrl "" ≠ "" ∧ build_search_url (boroughUrl "") "w" "" ≠ "" :=
  C7_listing_fetch_failure noFetch blankParse "w" "" "" (by decide) rfl

/-- C8: `CatalogueItem.is_available` is true exactly when the lowercased
status equals "available", and is false on the empty default status. -/
theorem C8_is_available_iff :
    (∀ c : CatalogueItem,
      c.is_available = true ↔ strToLower c.status = "available") ∧
    CatalogueItem.init.is_available = false := by
  refine ⟨fun c => ?_, rfl⟩
  simp [CatalogueItem.is_available]

/-- C9: `BranchResultItem.is_available` is true exactly when some owned
`CatalogueItem` is available, and is false on an empty item list whatever
the name. -/
theorem C9_branch_available_iff :
    (∀ b : BranchResultItem,
      b.is_available = true ↔ ∃ c ∈ b.items, c.is_available = true) ∧
    (∀ n : String, (BranchResultItem.mk n []).is_available = false) := by
  refine ⟨fun b => ?_, fun n => rfl⟩
  exact availLoop_iff b.items

/-- C10: for a branch element with a name span and a tbody, the extracted
items are exactly one `CatalogueItem` per `<tr>` of the first tbody in
document order (so the counts agree), and a row on which every field lookup
fails still yields the default item (status and texts empty, barcode 0)
rather than being dropped. -/
theorem C10_one_item_per_row :
    ∀ (branch tb n0 : Node) (nrest tbrest : List Node),
      findAllAttr branch "span" "itemprop" "name" = n0 :: nrest →
      selectTag branch "tbody" = tb :: tbrest →
      ((getBranchResultItem branch).items
          = (selectTag tb "tr").map extractCatalogueItem ∧
        (getBranchResultItem branch).items.length
          = (selectTag tb "tr").length) ∧
      (∀ row : Node,
        findAllAttr row "span" "itemprop" "serialNumber" = [] →
        findAllAttr row "span" "itemprop" "sku" = [] →
        findAllClassEq row "td" "loan" = [] →
        findAllClassRe row "td" = [] →
        extractCatalogueItem row = CatalogueItem.init) := by
  intro branch tb n0 nrest tbrest h1 h2
  constructor
  · have hb : getBranchResultItem branch =
        { name := n0.getText,
          items := (selectTag tb "tr").map extractCatalogueItem } := by
      unfold getBranchResultItem
      rw [h1, h2]
    rw [hb]
    exact ⟨rfl, List.length_map _ _⟩
  · intro row hs hk hl hr
    unfold extractCatalogueItem
    rw [hs, hk, hl, hr]

/-- C10 (witness): the per-row shape of the concrete two-row branch, one of
whose rows has no extractable field. -/
theorem C10_witness :
    (getBranchResultItem C10branch).items
        = (selectTag C10tbody "tr").map extractCatalogueItem ∧
      (getBranchResultItem C10branch).items.length
        = (selectTag C10tbody "tr").length :=
  (C10_one_item_per_row C10branch C10tbody C10nameSpan [] [] rfl rfl).1
